import Mathlib

/-!
# Verification of the articles service (Gin HTTP pipeline)

A shallow embedding of the request-processing pipeline of the articles
service: the middleware chain (recovery, correlation id, logging, CORS,
rate limiting, content-type validation, authentication), the route table,
the route handlers, and the in-memory article store they mutate.

Conventions of the embedding:
* Go `time.Time` values are modelled as `Int` (nanoseconds since an epoch);
  each call to `time.Now()` in the source becomes an explicit parameter.
* The rate limiter's clock is modelled as `ℚ` (seconds), so that token
  arithmetic is exact.
* `uuid.New().String()` becomes an explicit `String` parameter.
* Go strings with the `omitempty` JSON tag are modelled as plain `String`;
  the field is present in the serialized JSON exactly when it is nonempty.
* Gin's per-request key/value bag (`c.Set` / `c.GetString`) is a list of
  pairs; `GetString` of a missing key yields `""` as in Gin.
-/

namespace ArticlesService

/-- The `Article` model from the source: id, title, content, author and the
two timestamps (`created_at`, `updated_at`), with timestamps as `Int`. -/
structure Article where
  id : Int
  title : String
  content : String
  author : String
  created_at : Int
  updated_at : Int
deriving Repr, DecidableEq

/-- The payload placed in the `Data` field of the response envelope
(Go `interface{}`): nothing, a single article, the article list, or the
admin stats map. -/
inductive RespData where
  | none
  | article (a : Article)
  | articles (l : List Article)
  | stats (total_articles : Nat) (uptime : String)
deriving Repr, DecidableEq

/-- The `Response` envelope from the source. In Go all of `Message`,
`Error`, `RequestID` carry `omitempty`, so the empty string means the field
is absent from the serialized JSON; `Data` is absent when it is `.none`. -/
structure Response where
  success : Bool := false
  data : RespData := .none
  message : String := ""
  error : String := ""
  requestID : String := ""
deriving Repr, DecidableEq

/-- The article store's shared state: the `articles` slice and the `nextId`
counter (the two package-level variables guarded by `articleMux`). -/
structure StoreState where
  articles : List Article
  nextId : Int
deriving Repr, DecidableEq

/-- The two seed articles of the package-level `articles` slice; `t0` is
the value of `time.Now()` at program start. -/
def initialArticles (t0 : Int) : List Article :=
  [ { id := 1, title := "Getting Started with Go",
      content := "Go is a programming language...", author := "John Doe",
      created_at := t0, updated_at := t0 },
    { id := 2, title := "Web Development with Gin",
      content := "Gin is a web framework...", author := "Jane Smith",
      created_at := t0, updated_at := t0 } ]

/-- The initial store: the seed articles and `nextId = 3`. -/
def initialStore (t0 : Int) : StoreState :=
  { articles := initialArticles t0, nextId := 3 }

/-- Go `findArticleByID` from the source: linear scan returning the matching
article together with its index, or nothing (`nil, -1` in Go). -/
def findArticleByID (arts : List Article) (id : Int) : Option (Article × Nat) :=
  go arts 0
where
  go : List Article → Nat → Option (Article × Nat)
    | [], _ => Option.none
    | a :: rest, i => if a.id = id then some (a, i) else go rest (i + 1)

/-- Accumulate decimal digits; any non-digit character fails the parse. -/
def parseDigitsAux : List Char → Nat → Option Nat
  | [], acc => some acc
  | c :: cs, acc =>
      if c.isDigit then parseDigitsAux cs (acc * 10 + (c.toNat - '0'.toNat))
      else Option.none

/-- Go `strconv.Atoi`'s accepted syntax: an optional sign followed by at least
one decimal digit; yields the parsed value, or nothing on a syntax error. -/
def parseDecimalInt (s : String) : Option Int :=
  match s.data with
  | [] => Option.none
  | '-' :: cs =>
      if cs.isEmpty then Option.none
      else (parseDigitsAux cs 0).map (fun n => -(n : Int))
  | '+' :: cs =>
      if cs.isEmpty then Option.none
      else (parseDigitsAux cs 0).map (fun n => (n : Int))
  | cs => (parseDigitsAux cs 0).map (fun n => (n : Int))

/-- Go `strconv.Atoi` with its error discarded, as every handler in the source
does (`id, _ := strconv.Atoi(...)`): a syntactically valid decimal integer
yields its value and anything else yields `0`, which is what `Atoi` returns
alongside a syntax error. (Range clamping of 64-bit overflow is out of
scope; ids in play are small.) -/
def atoiIgnoreErr (s : String) : Int :=
  (parseDecimalInt s).getD 0

/-- Go `validateArticle` from the source signals an error exactly when one of
title, content, author is empty; this predicate is true when it signals. -/
def validateArticleFails (article : Article) : Bool :=
  article.title == "" || article.content == "" || article.author == ""

/-- The message carried by the error `validateArticle` returns:
`gin.Error{Err: http.ErrMissingFile}.Error()` stringifies its wrapped
`http.ErrMissingFile`. -/
def validateErrMsg : String := "http: no such file"

/-- Go `createArticle`'s store mutation and response, after a successful JSON
bind of `input`. `t1` and `t2` are the two consecutive `time.Now()` calls
stamping `CreatedAt` and `UpdatedAt`. Returns the new store, the HTTP
status and the envelope. The success and validation-failure envelopes set
no `RequestID`, exactly as in the source. -/
def createArticle (s : StoreState) (input : Article) (t1 t2 : Int) :
    StoreState × Nat × Response :=
  if validateArticleFails input then
    (s, 400, { success := false, error := validateErrMsg })
  else
    let stored : Article :=
      { input with id := s.nextId, created_at := t1, updated_at := t2 }
    ({ articles := s.articles ++ [stored], nextId := s.nextId + 1 },
     201, { success := true, data := .article stored })

/-- Go `updateArticle`'s store mutation and response. `idStr` is the raw `:id`
path parameter (`Atoi` error discarded); `input` is whatever
`ShouldBindJSON` produced (its error is ignored in the source, so missing
body fields are the zero value `""`); `t` is the `time.Now()` stamped into
`UpdatedAt`. Title, content and author are overwritten unconditionally. -/
def updateArticle (s : StoreState) (idStr : String) (input : Article) (t : Int) :
    StoreState × Nat × Response :=
  let id := atoiIgnoreErr idStr
  match findArticleByID s.articles id with
  | Option.none =>
      (s, 404, { success := false, error := "article not found" })
  | some (a, index) =>
      let updated : Article :=
        { a with title := input.title, content := input.content,
                 author := input.author, updated_at := t }
      ({ s with articles := s.articles.set index updated },
       200, { success := true, data := .article updated })

/-- Go `deleteArticle`'s store mutation and response:
`articles = append(articles[:index], articles[index+1:]...)` becomes
`take index ++ drop (index + 1)`. -/
def deleteArticle (s : StoreState) (idStr : String) :
    StoreState × Nat × Response :=
  let id := atoiIgnoreErr idStr
  match findArticleByID s.articles id with
  | Option.none =>
      (s, 404, { success := false, error := "article not found" })
  | some (_, index) =>
      ({ s with articles :=
          s.articles.take index ++ s.articles.drop (index + 1) },
       200, { success := true, message := "article deleted" })

/-- Go `getArticleById`'s response (reads only; `reqID` is the value of
`c.GetString("request_id")`, which this handler, unlike the mutating ones,
does place in the envelope). -/
def getArticleById (s : StoreState) (idStr : String) (reqID : String) :
    Nat × Response :=
  let id := atoiIgnoreErr idStr
  match findArticleByID s.articles id with
  | Option.none =>
      (404, { success := false, error := "article not found", requestID := reqID })
  | some (a, _) =>
      (200, { success := true, data := .article a, requestID := reqID })

/-! ## The Gin context and the middleware chain -/

/-- The slice of `gin.Context` state the service touches: the key/value bag
(`c.Set` / `c.GetString`), the response headers, the status, the JSON body
written (at most one — every write in the source is terminal), and the
abort flag. -/
structure Ctx where
  keys : List (String × String) := []
  headers : List (String × String) := []
  status : Nat := 200
  resp : Option Response := Option.none
  aborted : Bool := false
deriving Repr, DecidableEq

/-- Gin's `c.Set(k, v)` (string-valued keys only; the service stores only
`request_id` and `role`). -/
def Ctx.set (c : Ctx) (k v : String) : Ctx :=
  { c with keys := (k, v) :: c.keys }

/-- Gin's `c.GetString(k)`: the stored value, or `""` when the key is absent. -/
def Ctx.getString (c : Ctx) (k : String) : String :=
  match c.keys.find? (fun p => p.1 == k) with
  | some p => p.2
  | Option.none => ""

/-- Whether the key was ever `Set` — `_, ok := c.Get(k)` in Go. -/
def Ctx.hasKey (c : Ctx) (k : String) : Bool :=
  c.keys.any (fun p => p.1 == k)

/-- Gin's `c.Writer.Header().Set(k, v)` / `c.Header(k, v)`: replaces the header. -/
def Ctx.setHeader (c : Ctx) (k v : String) : Ctx :=
  { c with headers := (k, v) :: c.headers.filter (fun p => p.1 != k) }

/-- The current value of a response header, or `""` when unset. -/
def Ctx.header (c : Ctx) (k : String) : String :=
  match c.headers.find? (fun p => p.1 == k) with
  | some p => p.2
  | Option.none => ""

/-- Gin's `c.AbortWithStatusJSON(status, r)`. -/
def Ctx.abortWithStatusJSON (c : Ctx) (status : Nat) (r : Response) : Ctx :=
  { c with aborted := true, status := status, resp := some r }

/-- A handler's `c.JSON(status, r)` (terminal write, no abort flag). -/
def Ctx.writeJSON (c : Ctx) (status : Nat) (r : Response) : Ctx :=
  { c with status := status, resp := some r }

/-- A parsed inbound request: the fields of `*http.Request` and its headers
that the service reads. `body` is the result `ShouldBindJSON` would give
(`.error msg` for malformed JSON); `apiKey`, `origin`, `contentType` are
`GetHeader` results, so `""` when the header is absent. -/
structure Request where
  method : String
  path : String
  origin : String := ""
  apiKey : String := ""
  contentType : String := ""
  clientIP : String := ""
  body : Except String Article := Except.error "EOF"
deriving Repr

/-- Go `RequestIDMiddleware`: generate an id (the `uuid` parameter stands for
`uuid.New().String()`), store it under `request_id`, and mirror it in the
`X-Request-ID` response header. -/
def requestIDMiddleware (uuid : String) (c : Ctx) : Ctx :=
  (c.set "request_id" uuid).setHeader "X-Request-ID" uuid

/-- The recovery handler installed by `ErrorHandlerMiddleware`
(`gin.CustomRecovery`): when any later stage or handler panics, it writes
this terminal 500 envelope, carrying whatever `request_id` the context has.
The error string is the source's literal, misspelled `"interal"`. -/
def recoveredResponse (c : Ctx) : Ctx :=
  c.abortWithStatusJSON 500
    { success := false, error := "interal server error",
      requestID := c.getString "request_id" }

/-- The CORS allow-list from `CORSMiddleware`. -/
def allowedOrigins : List String :=
  ["http://localhost:3000", "https://myblog.com"]

/-- Go `CORSMiddleware`: echo the origin when allow-listed, set the static
CORS headers, and short-circuit OPTIONS pre-flights with 204 (no body). -/
def corsMiddleware (req : Request) (c : Ctx) : Ctx :=
  let c := if allowedOrigins.contains req.origin then
             c.setHeader "Access-Control-Allow-Origin" req.origin
           else c
  let c := c.setHeader "Access-Control-Allow-Methods" "GET, POST, PUT, DELETE, OPTIONS"
  let c := c.setHeader "Access-Control-Allow-Headers" "Content-type, X-API-Key, X-Request-ID"
  if req.method == "OPTIONS" then { c with aborted := true, status := 204 }
  else c

/-- The pre-shared key table from `AuthMiddleware`. -/
def apiKeys : List (String × String) :=
  [("admin-key", "admin"), ("user-key-456", "user")]

/-- Go `AuthMiddleware`: look the `X-API-Key` header up in the key table; on a
miss abort with 401. The source is missing a `return` after the abort, so
`c.Set("role", role)` runs on the failure path too, storing the zero value
`""`; this definition reproduces that. -/
def authMiddleware (req : Request) (c : Ctx) : Ctx :=
  let role? := apiKeys.lookup req.apiKey
  let role := role?.getD ""
  let c :=
    match role? with
    | Option.none =>
        c.abortWithStatusJSON 401
          { success := false, error := "invalid or missing API key",
            requestID := c.getString "request_id" }
    | some _ => c
  c.set "role" role

/-- Go `strings.HasPrefix`, structurally over the characters. -/
def hasPrefixStr (s pre : String) : Bool :=
  pre.data.isPrefixOf s.data

/-- Go `ContentTypeMiddleware`: POST and PUT must declare a Content-Type
beginning with `application/json`, else abort with 415. -/
def contentTypeMiddleware (req : Request) (c : Ctx) : Ctx :=
  if (req.method == "POST" || req.method == "PUT") &&
     !(hasPrefixStr req.contentType "application/json") then
    c.abortWithStatusJSON 415
      { success := false, error := "Content type must be application/json",
        requestID := c.getString "request_id" }
  else c

/-! ## The rate limiter

`RateLimitMiddleware` keeps one `rate.Limiter` per client IP, created as
`rate.NewLimiter(rate.Every(time.Minute/100), 100)`: capacity (burst) 100
tokens and one token accrued every 600 ms, i.e. a rate of `100/60` tokens
per second. The `x/time/rate` token bucket is embedded exactly over `ℚ`
seconds: a fresh limiter allows its full burst immediately (its zero
`last` time makes the first advance cap at the burst), accrual is
`elapsed * rate` capped at the capacity, and `Allow` consumes one token
when at least one is available. -/

/-- The advertised capacity `C`. -/
def bucketCapacity : ℚ := 100

/-- The refill rate `R` in tokens per second: `rate.Every(time.Minute/100)`
is one token per 3/5 s. -/
def refillRate : ℚ := 100 / 60

/-- One full refill interval in seconds: `time.Minute/100`. -/
def refillInterval : ℚ := 3 / 5

/-- A client's token bucket: current tokens and the time of the last
update, in seconds. -/
structure Bucket where
  tokens : ℚ
  last : ℚ
deriving Repr, DecidableEq

/-- Go `limiter.Allow()` at time `now`: accrue `elapsed * R` tokens capped at
`C`; if at least one token is available consume it and allow. -/
def Bucket.allow (b : Bucket) (now : ℚ) : Bool × Bucket :=
  let tokens := min bucketCapacity (b.tokens + (now - b.last) * refillRate)
  if 1 ≤ tokens then (true, { tokens := tokens - 1, last := now })
  else (false, { tokens := tokens, last := now })

/-- The `visitors` map of `RateLimitMiddleware`. -/
abbrev Visitors := List (String × Bucket)

/-- Go `getLimiter`: return the client's bucket, lazily creating a fresh
(full) one under the mutex. -/
def getLimiter (vis : Visitors) (ip : String) (now : ℚ) : Bucket × Visitors :=
  match List.lookup ip vis with
  | some b => (b, vis)
  | Option.none =>
      let fresh : Bucket := { tokens := bucketCapacity, last := now }
      (fresh, (ip, fresh) :: vis)

/-- Store the client's updated bucket back in the map. -/
def Visitors.store (vis : Visitors) (ip : String) (b : Bucket) : Visitors :=
  (ip, b) :: (vis.filter (fun p => p.1 != ip) : List (String × Bucket))

/-- One rate-limit decision for client `ip` at time `now`: the outcome of
`limiter.Allow()` plus the updated visitors map. -/
def rateLimitDecision (vis : Visitors) (ip : String) (now : ℚ) :
    Bool × Visitors :=
  let (limiter, vis) := getLimiter vis ip now
  let (allowed, b) := limiter.allow now
  (allowed, vis.store ip b)

/-- Go `RateLimitMiddleware`'s per-request behavior: set the informational
`X-RateLimit-Limit` header, then allow or abort with 429. -/
def rateLimitMiddleware (req : Request) (now : ℚ) (vis : Visitors) (c : Ctx) :
    Visitors × Ctx :=
  let c := c.setHeader "X-RateLimit-Limit" "100"
  let (allowed, vis) := rateLimitDecision vis req.clientIP now
  if !allowed then
    (vis, c.abortWithStatusJSON 429
      { success := false, error := "too many requests, limit exceeded",
        requestID := c.getString "request_id" })
  else (vis, c)

/-! ## Routing -/

/-- The seven handlers registered in `main`. -/
inductive HandlerId where
  | ping | getArticles | getArticleById
  | createArticle | updateArticle | deleteArticle | getStats
deriving Repr, DecidableEq

/-- One registered route: method, path pattern (gin syntax, `:id` binds a
segment), whether the route lives in the `AuthMiddleware`-protected group,
and its handler. -/
structure RouteEntry where
  method : String
  pattern : String
  requiresAuth : Bool
  handler : HandlerId
deriving Repr, DecidableEq

/-- The route table exactly as registered in `main`. Note the delete route
is registered at the singular `/article/:id`. -/
def routeTable : List RouteEntry :=
  [ { method := "GET", pattern := "/ping", requiresAuth := false, handler := .ping },
    { method := "GET", pattern := "/articles", requiresAuth := false, handler := .getArticles },
    { method := "GET", pattern := "/articles/:id", requiresAuth := false, handler := .getArticleById },
    { method := "POST", pattern := "/articles", requiresAuth := true, handler := .createArticle },
    { method := "PUT", pattern := "/articles/:id", requiresAuth := true, handler := .updateArticle },
    { method := "DELETE", pattern := "/article/:id", requiresAuth := true, handler := .deleteArticle },
    { method := "GET", pattern := "/admin/stats", requiresAuth := true, handler := .getStats } ]

/-- Split characters at `/`, dropping empty segments; `acc` holds the
current segment's characters in reverse. -/
def splitSegsAux : List Char → List Char → List String
  | [], acc => if acc.isEmpty then [] else [String.mk acc.reverse]
  | c :: cs, acc =>
      if c = '/' then
        (if acc.isEmpty then [] else [String.mk acc.reverse]) ++ splitSegsAux cs []
      else splitSegsAux cs (c :: acc)

/-- Split a path into its nonempty segments. -/
def splitSegs (p : String) : List String :=
  splitSegsAux p.data []

/-- Match pattern segments against path segments; a `:name` pattern segment
binds the corresponding path segment. -/
def matchSegs : List String → List String → Option (List (String × String))
  | [], [] => some []
  | pseg :: ps, seg :: ss =>
      match pseg.data with
      | ':' :: name =>
          (matchSegs ps ss).map (fun params => (String.mk name, seg) :: params)
      | _ =>
          if pseg == seg then matchSegs ps ss
          else Option.none
  | _, _ => Option.none

/-- Find the route entry matching a method and concrete path, together with
the bound path parameters; `Option.none` means gin's default 404 (no
envelope is written and no handler runs). -/
def findRoute (method path : String) : Option (RouteEntry × List (String × String)) :=
  go routeTable
where
  go : List RouteEntry → Option (RouteEntry × List (String × String))
    | [] => Option.none
    | e :: rest =>
        if e.method == method then
          match matchSegs (splitSegs e.pattern) (splitSegs path) with
          | some params => some (e, params)
          | Option.none => go rest
        else go rest

/-! ## Handlers at the pipeline level -/

/-- The zero `Article` value: what `var input Article` holds when
`ShouldBindJSON`'s error is ignored (as `updateArticle` does). -/
def zeroArticle : Article :=
  { id := 0, title := "", content := "", author := "",
    created_at := 0, updated_at := 0 }

/-- Handler `ping`. -/
def pingHandler (c : Ctx) : Ctx :=
  c.writeJSON 200
    { success := true, message := "pong", requestID := c.getString "request_id" }

/-- Handler `getArticles`. -/
def getArticlesHandler (s : StoreState) (c : Ctx) : Ctx :=
  c.writeJSON 200
    { success := true, data := .articles s.articles,
      requestID := c.getString "request_id" }

/-- Handler `getArticleById` wired to the context. -/
def getArticleByIdHandler (s : StoreState) (idStr : String) (c : Ctx) : Ctx :=
  let (status, r) := getArticleById s idStr (c.getString "request_id")
  c.writeJSON status r

/-- Handler `createArticle` wired to the context: a failed bind yields a 400 with
the bind error's message; note that none of this handler's envelopes carry
a `RequestID`. -/
def createArticleHandler (s : StoreState) (req : Request) (t1 t2 : Int)
    (c : Ctx) : StoreState × Ctx :=
  match req.body with
  | Except.error msg =>
      (s, c.writeJSON 400 { success := false, error := msg })
  | Except.ok input =>
      let (s, status, r) := createArticle s input t1 t2
      (s, c.writeJSON status r)

/-- Handler `updateArticle` wired to the context (bind errors ignored, so a failed
bind updates with the zero article). -/
def updateArticleHandler (s : StoreState) (idStr : String) (req : Request)
    (t : Int) (c : Ctx) : StoreState × Ctx :=
  let input := match req.body with
    | Except.ok a => a
    | Except.error _ => zeroArticle
  let (s, status, r) := updateArticle s idStr input t
  (s, c.writeJSON status r)

/-- Handler `deleteArticle` wired to the context. -/
def deleteArticleHandler (s : StoreState) (idStr : String) (c : Ctx) :
    StoreState × Ctx :=
  let (s, status, r) := deleteArticle s idStr
  (s, c.writeJSON status r)

/-- Handler `getStats`: requires the `role` context value to be `admin`. -/
def getStatsHandler (s : StoreState) (c : Ctx) : Ctx :=
  if c.getString "role" != "admin" then
    c.writeJSON 403 { success := false, error := "admin access required" }
  else
    c.writeJSON 200
      { success := true, data := .stats s.articles.length "24h" }

/-! ## The full pipeline -/

/-- The process-wide mutable state: the article store and the rate
limiter's visitors map. -/
structure ServerState where
  store : StoreState
  visitors : Visitors

/-- The initial server state at startup time `t0`. -/
def initialServer (t0 : Int) : ServerState :=
  { store := initialStore t0, visitors := [] }

/-- The chain from the content-type gate onward: ContentType validation,
routing, the route group's AuthMiddleware, and the handler. `t1 t2` are the
article-store clock readings (the source calls `time.Now()` at most twice
per handler, in order). -/
def afterRateLimit (req : Request) (t1 t2 : Int) (s : ServerState)
    (c : Ctx) : ServerState × Ctx :=
  let c := contentTypeMiddleware req c
  if c.aborted then (s, c) else
  match findRoute req.method req.path with
  | Option.none => (s, { c with status := 404 })
  | some (e, params) =>
    let c := if e.requiresAuth then authMiddleware req c else c
    if c.aborted then (s, c) else
    let idStr := ((params.lookup "id").getD "")
    match e.handler with
    | .ping => (s, pingHandler c)
    | .getArticles => (s, getArticlesHandler s.store c)
    | .getArticleById => (s, getArticleByIdHandler s.store idStr c)
    | .createArticle =>
        let (store, c) := createArticleHandler s.store req t1 t2 c
        ({ s with store := store }, c)
    | .updateArticle =>
        let (store, c) := updateArticleHandler s.store idStr req t1 c
        ({ s with store := store }, c)
    | .deleteArticle =>
        let (store, c) := deleteArticleHandler s.store idStr c
        ({ s with store := store }, c)
    | .getStats => (s, getStatsHandler s.store c)

/-- One non-panicking request through the whole chain, in the registered
order: Recovery (no effect unless something panics; nothing in the modelled
paths does), RequestID, Logging (records only), CORS, RateLimit, then
`afterRateLimit`. `uuid` is the generated request id, `now` the rate
limiter's clock in seconds. -/
def runRequest (req : Request) (uuid : String) (now : ℚ) (t1 t2 : Int)
    (s : ServerState) : ServerState × Ctx :=
  let c : Ctx := {}
  let c := requestIDMiddleware uuid c
  let c := corsMiddleware req c
  if c.aborted then (s, c) else
  let (vis, c) := rateLimitMiddleware req now s.visitors c
  let s := { s with visitors := vis }
  if c.aborted then (s, c) else
  afterRateLimit req t1 t2 s c

/-! ## Reachable store states and their invariant -/

/-- Store states reachable from startup through the three mutating
handlers (all mutations of the `articles` slice and `nextId` in the source
go through these). -/
inductive Reachable : StoreState → Prop
  | init (t0 : Int) : Reachable (initialStore t0)
  | create (s : StoreState) (input : Article) (t1 t2 : Int) :
      Reachable s → Reachable (createArticle s input t1 t2).1
  | update (s : StoreState) (idStr : String) (input : Article) (t : Int) :
      Reachable s → Reachable (updateArticle s idStr input t).1
  | delete (s : StoreState) (idStr : String) :
      Reachable s → Reachable (deleteArticle s idStr).1

/-- The store invariant: the counter is positive and every stored id is
positive and below the counter (so ids are never `0` and never collide with
freshly assigned ones). -/
def StoreInv (s : StoreState) : Prop :=
  1 ≤ s.nextId ∧ ∀ a ∈ s.articles, 1 ≤ a.id ∧ a.id < s.nextId

/-! ## Rate limiter runs -/

/-- A sequence of `Allow` calls against one bucket, returning the decisions
and the final bucket. -/
def bucketRun (b : Bucket) : List ℚ → List Bool × Bucket
  | [] => ([], b)
  | t :: ts =>
      let (ok, b') := b.allow t
      let (bs, bf) := bucketRun b' ts
      (ok :: bs, bf)

/-- A sequence of rate-limit decisions for one client against the visitors
map, returning the decisions and the final map. -/
def runDecisions (ip : String) (vis : Visitors) : List ℚ → List Bool × Visitors
  | [] => ([], vis)
  | t :: ts =>
      let (ok, vis') := rateLimitDecision vis ip t
      let (bs, visf) := runDecisions ip vis' ts
      (ok :: bs, visf)

/-! ## The two phases of an unsynchronized delete -/

/-- The read half of `deleteArticle`: look the index up. The source runs
this and the slice write below without holding `articleMux` (only
`createArticle` locks it), so between the two phases of one request,
another request's phases may run. -/
def deleteFindIndex (s : StoreState) (idStr : String) : Option Nat :=
  (findArticleByID s.articles (atoiIgnoreErr idStr)).map Prod.snd

/-- The write half of `deleteArticle`: splice the slice at a previously
computed index and build the success response. -/
def deleteApplyAt (s : StoreState) (index : Nat) : StoreState × Nat × Response :=
  ({ s with articles :=
      s.articles.take index ++ s.articles.drop (index + 1) },
   200, { success := true, message := "article deleted" })

/-! ## Concrete requests used in whole-pipeline evaluations -/

/-- A POST /articles request carrying `input` as its parsed JSON body, with
a valid admin key and a JSON content type, from client `ip`. -/
def postReq (input : Article) (ip : String) : Request :=
  { method := "POST", path := "/articles", apiKey := "admin-key",
    contentType := "application/json", clientIP := ip,
    body := Except.ok input }

/-- POST /articles with body `{"title":"A","content":"B","author":"C"}`. -/
def postABCReq : Request :=
  postReq { id := 0, title := "A", content := "B", author := "C",
            created_at := 0, updated_at := 0 } "198.51.100.1"

/-- The same POST with an X-API-Key that is not in the key table. -/
def badKeyReq : Request :=
  { postABCReq with apiKey := "wrong-key", clientIP := "198.51.100.2" }

/-- DELETE at the plural path the spec documents. -/
def deletePluralReq : Request :=
  { method := "DELETE", path := "/articles/2", apiKey := "admin-key",
    clientIP := "203.0.113.7" }

/-- DELETE at the singular path the source registers. -/
def deleteSingularReq : Request :=
  { method := "DELETE", path := "/article/2", apiKey := "admin-key",
    clientIP := "203.0.113.7" }

/-- DELETE at the singular path for an id that does not exist. -/
def deleteMissingReq : Request :=
  { method := "DELETE", path := "/article/99", apiKey := "admin-key",
    clientIP := "203.0.113.7" }

/-! ## Evaluation helpers for whole-pipeline runs -/

/-- The context built by the correlation-id, CORS and rate-limit stages for
a non-preflight, admitted request. -/
def gatesCtx (req : Request) (uuid : String) : Ctx :=
  (corsMiddleware req (requestIDMiddleware uuid {})).setHeader
    "X-RateLimit-Limit" "100"

/-- An admitted non-preflight request leaves the gate stages unaborted. -/
theorem gatesCtx_aborted (req : Request) (uuid : String)
    (hm : (req.method == "OPTIONS") = false) :
    (gatesCtx req uuid).aborted = false := by
  unfold gatesCtx corsMiddleware requestIDMiddleware Ctx.set Ctx.setHeader
  simp only [hm, Bool.false_eq_true, if_false]
  split <;> rfl

/-- A just-created (full) bucket admits a request at its creation instant,
spending one token. -/
theorem allow_fresh (t : ℚ) :
    Bucket.allow { tokens := bucketCapacity, last := t } t =
      (true, { tokens := bucketCapacity - 1, last := t }) := by
  unfold Bucket.allow bucketCapacity
  norm_num

/-- The rate-limit decision for a client not yet in the visitors map:
admitted, with a fresh bucket at 99 tokens stored. -/
theorem rateLimitDecision_fresh (vis : Visitors) (ip : String) (t : ℚ)
    (h : List.lookup ip vis = Option.none) :
    rateLimitDecision vis ip t =
      (true, Visitors.store ((ip, ({ tokens := bucketCapacity, last := t } : Bucket)) :: vis)
        ip { tokens := bucketCapacity - 1, last := t }) := by
  have hstep :
      rateLimitDecision vis ip t =
        ((Bucket.allow { tokens := bucketCapacity, last := t } t).1,
         Visitors.store ((ip, ({ tokens := bucketCapacity, last := t } : Bucket)) :: vis) ip
           (Bucket.allow { tokens := bucketCapacity, last := t } t).2) := by
    unfold rateLimitDecision getLimiter
    rw [h]
  rw [hstep, allow_fresh]

/-- Go `RateLimitMiddleware` on a client not yet in the visitors map: the
limit header is set and the request is admitted. -/
theorem rateLimitMiddleware_fresh (req : Request) (now : ℚ) (vis : Visitors)
    (c : Ctx) (h : List.lookup req.clientIP vis = Option.none) :
    rateLimitMiddleware req now vis c =
      (Visitors.store
        ((req.clientIP, ({ tokens := bucketCapacity, last := now } : Bucket)) :: vis)
        req.clientIP { tokens := bucketCapacity - 1, last := now },
       c.setHeader "X-RateLimit-Limit" "100") := by
  unfold rateLimitMiddleware
  rw [rateLimitDecision_fresh vis req.clientIP now h]
  rfl

/-- A non-preflight request from an unseen client passes the gate stages
and continues into `afterRateLimit` with the gate context. -/
theorem runRequest_fresh (req : Request) (uuid : String) (now : ℚ)
    (t1 t2 : Int) (store : StoreState) (vis : Visitors)
    (hm : (req.method == "OPTIONS") = false)
    (hfresh : List.lookup req.clientIP vis = Option.none) :
    runRequest req uuid now t1 t2 { store := store, visitors := vis } =
      afterRateLimit req t1 t2
        { store := store,
          visitors := Visitors.store
            ((req.clientIP, ({ tokens := bucketCapacity, last := now } : Bucket)) :: vis)
            req.clientIP { tokens := bucketCapacity - 1, last := now } }
        (gatesCtx req uuid) := by
  have hgates := gatesCtx_aborted req uuid hm
  have hcors : (corsMiddleware req (requestIDMiddleware uuid {})).aborted = false := by
    unfold corsMiddleware requestIDMiddleware Ctx.set Ctx.setHeader
    simp only [hm, Bool.false_eq_true, if_false]
    split <;> rfl
  unfold runRequest
  dsimp only
  rw [rateLimitMiddleware_fresh req now vis _ hfresh]
  simp only [hcors, Bool.false_eq_true, if_false]
  have habort2 :
      ((corsMiddleware req (requestIDMiddleware uuid {})).setHeader
        "X-RateLimit-Limit" "100").aborted = false := hgates
  simp only [habort2, Bool.false_eq_true, if_false, gatesCtx]

/-! ## Lemmas: the article finder and the store invariant -/

/-- Helper `findArticleByID.go` misses exactly when no remaining article has the
id. -/
theorem findArticleByID_go_eq_none (id : Int) (arts : List Article) (i : Nat) :
    findArticleByID.go id arts i = Option.none ↔ ∀ a ∈ arts, a.id ≠ id := by
  induction arts generalizing i with
  | nil => simp [findArticleByID.go]
  | cons x rest ih =>
      by_cases hx : x.id = id
      · simp [findArticleByID.go, hx]
      · simp [findArticleByID.go, hx, ih]

/-- Function `findArticleByID` misses exactly when no stored article has the id. -/
theorem findArticleByID_eq_none (arts : List Article) (id : Int) :
    findArticleByID arts id = Option.none ↔ ∀ a ∈ arts, a.id ≠ id := by
  simpa [findArticleByID] using findArticleByID_go_eq_none id arts 0

/-- A hit of `findArticleByID.go` starting at offset `i0` lands at `i0 + k`
for some valid position `k` holding the returned article. -/
theorem findArticleByID_go_eq_some (id : Int) (arts : List Article)
    (i0 : Nat) (a : Article) (j : Nat)
    (h : findArticleByID.go id arts i0 = some (a, j)) :
    ∃ k, j = i0 + k ∧ arts.get? k = some a ∧ a.id = id := by
  induction arts generalizing i0 with
  | nil => simp [findArticleByID.go] at h
  | cons x rest ih =>
      by_cases hx : x.id = id
      · simp [findArticleByID.go, hx] at h
        exact ⟨0, by omega, by simp [h.1], by rw [← h.1]; exact hx⟩
      · simp [findArticleByID.go, hx] at h
        obtain ⟨k, hk, hget, hid⟩ := ih (i0 + 1) h
        exact ⟨k + 1, by omega, by simpa using hget, hid⟩

/-- A hit of `findArticleByID` returns the article stored at the returned
index, and that article bears the looked-up id. -/
theorem findArticleByID_eq_some (arts : List Article) (id : Int)
    (a : Article) (i : Nat) (h : findArticleByID arts id = some (a, i)) :
    arts.get? i = some a ∧ a.id = id := by
  obtain ⟨k, hk, hget, hid⟩ :=
    findArticleByID_go_eq_some id arts 0 a i h
  exact ⟨by simpa [hk] using hget, hid⟩

/-- The hit article is a member of the list. -/
theorem findArticleByID_mem (arts : List Article) (id : Int)
    (a : Article) (i : Nat) (h : findArticleByID arts id = some (a, i)) :
    a ∈ arts :=
  List.get?_mem (findArticleByID_eq_some arts id a i h).1

/-- Every reachable store state satisfies the invariant. -/
theorem reachable_storeInv (s : StoreState) (h : Reachable s) : StoreInv s := by
  induction h with
  | init t0 =>
      refine ⟨by norm_num [initialStore], ?_⟩
      intro a ha
      simp [initialStore, initialArticles] at ha
      rcases ha with ha | ha <;> simp [ha, initialStore]
  | create s input t1 t2 _ ih =>
      obtain ⟨hpos, hall⟩ := ih
      unfold createArticle
      by_cases hv : validateArticleFails input
      · simpa [hv] using ⟨hpos, hall⟩
      · refine ⟨by simp [hv]; omega, ?_⟩
        intro a ha
        simp [hv] at ha ⊢
        rcases ha with ha | ha
        · have := hall a ha; omega
        · simp [ha]; omega
  | update s idStr input t _ ih =>
      obtain ⟨hpos, hall⟩ := ih
      unfold updateArticle
      cases hfind : findArticleByID s.articles (atoiIgnoreErr idStr) with
      | none => simpa [hfind] using ⟨hpos, hall⟩
      | some hit =>
          obtain ⟨b, i⟩ := hit
          have hb := findArticleByID_mem s.articles _ b i hfind
          simp only [hfind]
          refine ⟨hpos, ?_⟩
          intro a ha
          simp at ha
          rcases List.mem_or_eq_of_mem_set ha with ha' | ha'
          · exact hall a ha'
          · have := hall b hb
            simp [ha']
            omega
  | delete s idStr _ ih =>
      obtain ⟨hpos, hall⟩ := ih
      unfold deleteArticle
      cases hfind : findArticleByID s.articles (atoiIgnoreErr idStr) with
      | none => simpa [hfind] using ⟨hpos, hall⟩
      | some hit =>
          obtain ⟨b, i⟩ := hit
          simp only [hfind]
          refine ⟨hpos, ?_⟩
          intro a ha
          simp at ha
          rcases ha with ha' | ha'
          · exact hall a (List.mem_of_mem_take ha')
          · exact hall a (List.mem_of_mem_drop ha')

/-! ## Lemmas: rate limiter runs -/

/-- After `Visitors.store`, looking the client up yields the stored
bucket. -/
theorem lookup_store (vis : Visitors) (ip : String) (b : Bucket) :
    List.lookup ip (Visitors.store vis ip b) = some b := by
  simp [Visitors.store, List.lookup]

/-- The map-level decision run for a client already holding bucket `b`
coincides with the bucket-level run. -/
theorem runDecisions_eq_bucketRun (ip : String) (ts : List ℚ) :
    ∀ (vis : Visitors) (b : Bucket), List.lookup ip vis = some b →
      (runDecisions ip vis ts).1 = (bucketRun b ts).1 ∧
      List.lookup ip (runDecisions ip vis ts).2 = some (bucketRun b ts).2 := by
  induction ts with
  | nil => intro vis b h; simpa [runDecisions, bucketRun]
  | cons t ts ih =>
      intro vis b h
      have hstep :
          rateLimitDecision vis ip t =
            ((b.allow t).1, Visitors.store vis ip (b.allow t).2) := by
        unfold rateLimitDecision getLimiter
        rw [h]
      have hlook := lookup_store vis ip (b.allow t).2
      obtain ⟨h1, h2⟩ := ih (Visitors.store vis ip (b.allow t).2) (b.allow t).2 hlook
      constructor
      · simp [runDecisions, bucketRun, hstep, h1]
      · simp [runDecisions, bucketRun, hstep, h2]

/-- For an unseen client the first decision creates a fresh, full bucket
stamped at the current time; the whole run therefore coincides with a
bucket-level run from a full bucket, and the final map holds the final
bucket. -/
theorem runDecisions_fresh (ip : String) (vis : Visitors) (t : ℚ)
    (ts : List ℚ) (h : List.lookup ip vis = Option.none) :
    (runDecisions ip vis (t :: ts)).1 =
      (bucketRun { tokens := bucketCapacity, last := t } (t :: ts)).1 ∧
    List.lookup ip (runDecisions ip vis (t :: ts)).2 =
      some (bucketRun { tokens := bucketCapacity, last := t } (t :: ts)).2 := by
  have hstep :
      rateLimitDecision vis ip t =
        ((Bucket.allow { tokens := bucketCapacity, last := t } t).1,
         Visitors.store ((ip, ({ tokens := bucketCapacity, last := t } : Bucket)) :: vis) ip
           (Bucket.allow { tokens := bucketCapacity, last := t } t).2) := by
    unfold rateLimitDecision getLimiter
    rw [h]
  have hlook := lookup_store
    ((ip, ({ tokens := bucketCapacity, last := t } : Bucket)) :: vis) ip
    (Bucket.allow { tokens := bucketCapacity, last := t } t).2
  obtain ⟨h1, h2⟩ := runDecisions_eq_bucketRun ip ts _ _ hlook
  constructor
  · simp [runDecisions, bucketRun, hstep, h1]
  · simp [runDecisions, bucketRun, hstep, h2]

/-- Fact: `bucketRun` splits over list append. -/
theorem bucketRun_append (l1 l2 : List ℚ) : ∀ b : Bucket,
    bucketRun b (l1 ++ l2) =
      ((bucketRun b l1).1 ++ (bucketRun (bucketRun b l1).2 l2).1,
       (bucketRun (bucketRun b l1).2 l2).2) := by
  induction l1 with
  | nil => intro b; simp [bucketRun]
  | cons t ts ih => intro b; simp [bucketRun, ih]

/-- An empty bucket rejects a request at its own timestamp. -/
theorem allow_empty (t : ℚ) :
    Bucket.allow { tokens := 0, last := t } t = (false, { tokens := 0, last := t }) := by
  unfold Bucket.allow bucketCapacity refillRate
  norm_num

/-- An empty bucket admits one request after one full refill interval
(`time.Minute/100`), ending empty again. -/
theorem allow_after_refill (t : ℚ) :
    Bucket.allow { tokens := 0, last := t } (t + refillInterval) =
      (true, { tokens := 0, last := t + refillInterval }) := by
  unfold Bucket.allow bucketCapacity refillRate refillInterval
  rw [show (t + 3 / 5 - t) * (100 / 60 : ℚ) = 1 by ring]
  norm_num

/-- Calling `Allow` at the very instant of the last update, with `1 ≤ m ≤ C`
tokens on hand: one token is consumed. -/
theorem allow_same_instant (m t : ℚ) (h1 : 1 ≤ m) (h2 : m ≤ bucketCapacity) :
    Bucket.allow { tokens := m, last := t } t =
      (true, { tokens := m - 1, last := t }) := by
  simp [Bucket.allow, min_eq_right h2, h1]

/-- A burst of `n ≤ m` calls at one instant from a bucket holding `m ≤ C`
tokens: all allowed, `n` tokens consumed. -/
theorem bucketRun_burst (n : Nat) : ∀ (m t : ℚ), (n : ℚ) ≤ m →
    m ≤ bucketCapacity →
    bucketRun { tokens := m, last := t } (List.replicate n t) =
      (List.replicate n true, { tokens := m - n, last := t }) := by
  induction n with
  | zero => intro m t _ _; simp [bucketRun]
  | succ n ih =>
      intro m t hn hm
      have h1 : 1 ≤ m := by
        have : ((n : ℚ) + 1) ≤ m := by push_cast at hn; linarith
        have : (0 : ℚ) ≤ n := by positivity
        linarith
      have hrec := ih (m - 1) t (by push_cast at hn ⊢; linarith)
        (by linarith)
      simp only [List.replicate_succ, bucketRun, allow_same_instant m t h1 hm, hrec]
      simp only [Prod.mk.injEq, Bucket.mk.injEq]
      refine ⟨trivial, ?_, trivial⟩
      push_cast
      ring

/-! ## Lemmas: what the pipeline does to the context -/

/-- Fact: `writeJSON` writes the given body. -/
theorem ctx_resp_writeJSON (c : Ctx) (st : Nat) (r : Response) :
    (c.writeJSON st r).resp = some r := rfl

/-- Fact: `abortWithStatusJSON` writes the given body. -/
theorem ctx_resp_abortJSON (c : Ctx) (st : Nat) (r : Response) :
    (c.abortWithStatusJSON st r).resp = some r := rfl

/-- Fact: `c.Set` leaves the written body alone. -/
theorem ctx_resp_set (c : Ctx) (k v : String) :
    (c.set k v).resp = c.resp := rfl

/-- Fact: `writeJSON` leaves the response headers alone. -/
theorem ctx_headers_writeJSON (c : Ctx) (st : Nat) (r : Response) :
    (c.writeJSON st r).headers = c.headers := rfl

/-- Fact: `abortWithStatusJSON` leaves the response headers alone. -/
theorem ctx_headers_abortJSON (c : Ctx) (st : Nat) (r : Response) :
    (c.abortWithStatusJSON st r).headers = c.headers := rfl

/-- Fact: `c.Set` leaves the response headers alone. -/
theorem ctx_headers_set (c : Ctx) (k v : String) :
    (c.set k v).headers = c.headers := rfl

/-- Aborting does not disturb the stored keys. -/
theorem ctx_getString_abortJSON (c : Ctx) (st : Nat) (r : Response) (k : String) :
    (c.abortWithStatusJSON st r).getString k = c.getString k := rfl

/-- Fact: `setHeader` does not change the abort flag. -/
theorem ctx_aborted_setHeader (c : Ctx) (k v : String) :
    (c.setHeader k v).aborted = c.aborted := rfl

/-- Aborting does not disturb a header value. -/
theorem ctx_header_abortJSON (c : Ctx) (st : Nat) (r : Response) (k : String) :
    (c.abortWithStatusJSON st r).header k = c.header k := rfl

/-- A header value only depends on the header list. -/
theorem ctx_header_congr (c1 c2 : Ctx) (k : String)
    (h : c1.headers = c2.headers) : c1.header k = c2.header k := by
  unfold Ctx.header
  rw [h]

/-- Storing the role does not disturb the stored correlation id. -/
theorem ctx_getString_set_role (c : Ctx) (v : String) :
    (c.set "role" v).getString "request_id" = c.getString "request_id" := by
  unfold Ctx.set Ctx.getString
  simp [List.find?]

/-- The context CORS left behind carries no body. -/
theorem cors_resp_none (req : Request) (uuid : String) :
    (corsMiddleware req (requestIDMiddleware uuid {})).resp = Option.none := by
  unfold corsMiddleware requestIDMiddleware
  cases ho : allowedOrigins.contains req.origin <;>
    cases hm2 : req.method == "OPTIONS" <;>
      simp only [ho, hm2, Bool.false_eq_true, if_false, eq_self_iff_true,
        if_true] <;> rfl

/-- CORS aborts exactly the pre-flight requests. -/
theorem cors_aborted_eq (req : Request) (uuid : String) :
    (corsMiddleware req (requestIDMiddleware uuid {})).aborted =
      (req.method == "OPTIONS") := by
  unfold corsMiddleware requestIDMiddleware
  cases ho : allowedOrigins.contains req.origin <;>
    cases hm2 : req.method == "OPTIONS" <;>
      simp only [ho, hm2, Bool.false_eq_true, if_false, eq_self_iff_true,
        if_true] <;> rfl

/-- After the gate stages the context carries no body. -/
theorem gates_resp_none (req : Request) (uuid : String) :
    ((corsMiddleware req (requestIDMiddleware uuid {})).setHeader
      "X-RateLimit-Limit" "100").resp = Option.none := by
  unfold corsMiddleware requestIDMiddleware
  cases ho : allowedOrigins.contains req.origin <;>
    cases hm2 : req.method == "OPTIONS" <;>
      simp only [ho, hm2, Bool.false_eq_true, if_false, eq_self_iff_true,
        if_true] <;> rfl

/-- After the gate stages the stored correlation id is the generated
uuid. -/
theorem gates_getString_requestId (req : Request) (uuid : String) :
    ((corsMiddleware req (requestIDMiddleware uuid {})).setHeader
      "X-RateLimit-Limit" "100").getString "request_id" = uuid := by
  unfold corsMiddleware requestIDMiddleware
  cases ho : allowedOrigins.contains req.origin <;>
    cases hm2 : req.method == "OPTIONS" <;>
      simp only [ho, hm2, Bool.false_eq_true, if_false, eq_self_iff_true,
        if_true] <;> rfl

/-- After the gate stages the X-Request-ID header is the generated uuid. -/
theorem gates_header_requestId (req : Request) (uuid : String) :
    ((corsMiddleware req (requestIDMiddleware uuid {})).setHeader
      "X-RateLimit-Limit" "100").header "X-Request-ID" = uuid := by
  unfold corsMiddleware requestIDMiddleware
  cases ho : allowedOrigins.contains req.origin <;>
    cases hm2 : req.method == "OPTIONS" <;>
      simp only [ho, hm2, Bool.false_eq_true, if_false, eq_self_iff_true,
        if_true] <;> rfl

/-- No stage after the gates touches the response headers. -/
theorem afterRateLimit_headers (req : Request) (t1 t2 : Int)
    (s : ServerState) (c : Ctx) :
    (afterRateLimit req t1 t2 s c).2.headers = c.headers := by
  unfold afterRateLimit contentTypeMiddleware authMiddleware pingHandler
    getArticlesHandler getArticleByIdHandler getArticleById
    createArticleHandler createArticle updateArticleHandler updateArticle
    deleteArticleHandler deleteArticle getStatsHandler
  dsimp only
  repeat' split
  all_goals rfl

/-- Every body written after the gates carries either no request id or the
context's stored correlation id. -/
theorem afterRateLimit_requestId (req : Request) (t1 t2 : Int)
    (s : ServerState) (c : Ctx) (hresp : c.resp = Option.none) :
    ∀ r : Response, (afterRateLimit req t1 t2 s c).2.resp = some r →
      r.requestID = "" ∨ r.requestID = c.getString "request_id" := by
  unfold afterRateLimit contentTypeMiddleware authMiddleware pingHandler
    getArticlesHandler getArticleByIdHandler getArticleById
    createArticleHandler createArticle updateArticleHandler updateArticle
    deleteArticleHandler deleteArticle getStatsHandler
  dsimp only
  repeat' split
  all_goals intro r hr
  all_goals simp only [ctx_resp_writeJSON, ctx_resp_abortJSON, ctx_resp_set,
    Option.some.injEq] at hr
  all_goals first
    | (rw [hresp] at hr; exact absurd hr (by simp))
    | (subst hr; simp [ctx_getString_abortJSON, ctx_getString_set_role])

/-- Fact: `deleteArticle` is its read phase followed by its write phase. -/
theorem deleteArticle_eq_phases (s : StoreState) (idStr : String) :
    deleteArticle s idStr =
      match deleteFindIndex s idStr with
      | Option.none =>
          (s, 404, { success := false, error := "article not found" })
      | some i => deleteApplyAt s i := by
  unfold deleteArticle deleteFindIndex deleteApplyAt
  cases hf : findArticleByID s.articles (atoiIgnoreErr idStr) with
  | none => simp [hf]
  | some v => obtain ⟨a, i⟩ := v; simp [hf]

/-! ## The claims -/

/-- C2. The claim says a role is present in the context iff
authentication succeeded, and that on an unknown key the stage aborts with
401 storing no role. The code does abort with 401, but the missing `return`
after `AbortWithStatusJSON` means `c.Set("role", role)` still runs with the
zero-value role, so a role key is present (holding `""`) even though
authentication failed. -/
theorem auth_reject_still_stores_role :
    (runRequest badKeyReq "u2" 0 0 0 { store := initialStore 0, visitors := [] }).2.status = 401 ∧
    (runRequest badKeyReq "u2" 0 0 0 { store := initialStore 0, visitors := [] }).2.aborted = true ∧
    (runRequest badKeyReq "u2" 0 0 0 { store := initialStore 0, visitors := [] }).2.resp.map
      Response.error = some "invalid or missing API key" ∧
    (runRequest badKeyReq "u2" 0 0 0 { store := initialStore 0, visitors := [] }).2.hasKey
      "role" = true ∧
    (runRequest badKeyReq "u2" 0 0 0 { store := initialStore 0, visitors := [] }).2.getString
      "role" = "" := by
  rw [runRequest_fresh badKeyReq "u2" 0 0 0 (initialStore 0) [] rfl rfl]
  decide

/-- C3. The claim says Recovery produces a 500, success=false envelope
with error string `"internal server error"` carrying the assigned
correlation id. The code's envelope is a 500, success=false envelope
carrying the correlation id, but its error string is the misspelled
`"interal server error"`. -/
theorem recovery_envelope_misspelled :
    (recoveredResponse (requestIDMiddleware "u3" {})).status = 500 ∧
    (recoveredResponse (requestIDMiddleware "u3" {})).aborted = true ∧
    (recoveredResponse (requestIDMiddleware "u3" {})).resp =
      some { success := false, error := "interal server error", requestID := "u3" } ∧
    ("interal server error" : String) ≠ "internal server error" := by
  decide

/-- C7. The claim says the HTTP surface includes DELETE /articles/{id}.
The source registers the delete handler at the singular `/article/:id`
instead: DELETE at the plural path matches no route (gin's default 404,
no envelope, handler never runs), while the singular path reaches
`deleteArticle` and behaves as 200-on-success / 404-on-missing. -/
theorem delete_route_registered_singular :
    findRoute "DELETE" "/articles/2" = Option.none ∧
    findRoute "DELETE" "/article/2" =
      some ({ method := "DELETE", pattern := "/article/:id",
              requiresAuth := true, handler := .deleteArticle }, [("id", "2")]) ∧
    (runRequest deletePluralReq "u7" 0 0 0 { store := initialStore 0, visitors := [] }).2.status = 404 ∧
    (runRequest deletePluralReq "u7" 0 0 0 { store := initialStore 0, visitors := [] }).2.resp = Option.none ∧
    (runRequest deleteSingularReq "u7" 0 0 0 { store := initialStore 0, visitors := [] }).2.status = 200 ∧
    (runRequest deleteSingularReq "u7" 0 0 0 { store := initialStore 0, visitors := [] }).1.store.articles.map
      Article.id = [1] ∧
    (runRequest deleteMissingReq "u7" 0 0 0 { store := initialStore 0, visitors := [] }).2.status = 404 ∧
    (runRequest deleteMissingReq "u7" 0 0 0 { store := initialStore 0, visitors := [] }).2.resp.map
      Response.error = some "article not found" := by
  refine ⟨by decide, by decide, ?_, ?_, ?_, ?_, ?_, ?_⟩ <;>
    first
      | (rw [runRequest_fresh deletePluralReq "u7" 0 0 0 (initialStore 0) [] rfl rfl]; decide)
      | (rw [runRequest_fresh deleteSingularReq "u7" 0 0 0 (initialStore 0) [] rfl rfl]; decide)
      | (rw [runRequest_fresh deleteMissingReq "u7" 0 0 0 (initialStore 0) [] rfl rfl]; decide)

/-- C9 (counterexample to the mutual-exclusion contract). Only
`createArticle` takes `articleMux`; `updateArticle` and `deleteArticle`
mutate the shared slice with no lock, so two concurrent deletes can both
run their read phase before either write phase. From the seed store,
deleting ids 1 and 2 in that interleaving leaves article 2 present even
though both requests were answered 200 "article deleted" — sequential
execution would empty the store. -/
theorem concurrent_deletes_lose_a_delete :
    deleteFindIndex (initialStore 0) "1" = some 0 ∧
    deleteFindIndex (initialStore 0) "2" = some 1 ∧
    (deleteApplyAt (initialStore 0) 0).2.1 = 200 ∧
    (deleteApplyAt (deleteApplyAt (initialStore 0) 0).1 1).2.1 = 200 ∧
    (deleteApplyAt (deleteApplyAt (initialStore 0) 0).1 1).2.2.message = "article deleted" ∧
    (deleteApplyAt (deleteApplyAt (initialStore 0) 0).1 1).1.articles.map Article.id = [2] ∧
    (deleteArticle (deleteArticle (initialStore 0) "1").1 "2").1.articles.map Article.id = [] := by
  decide

/-- C1 (counterexample to "the request_id field is present in every
response"). A successful POST /articles returns a 201 envelope whose
`RequestID` is the empty string — with `omitempty`, the `request_id` field
is absent from the JSON — while the X-Request-ID header does carry the
correlation id. -/
theorem create_response_omits_requestId :
    (runRequest postABCReq "req-uuid-1" 0 10 11 { store := initialStore 0, visitors := [] }).2.header
      "X-Request-ID" = "req-uuid-1" ∧
    (runRequest postABCReq "req-uuid-1" 0 10 11 { store := initialStore 0, visitors := [] }).2.status = 201 ∧
    (runRequest postABCReq "req-uuid-1" 0 10 11 { store := initialStore 0, visitors := [] }).2.resp.map
      Response.requestID = some "" ∧
    ("req-uuid-1" : String) ≠ "" := by
  rw [runRequest_fresh postABCReq "req-uuid-1" 0 10 11 (initialStore 0) [] rfl rfl]
  decide

/-- C6 (counterexample to "id equal to the next integer after the
current maximum identifier" and to "created_at equals updated_at"). After
deleting article 2 from the seed store — a reachable state whose maximum
id is 1 — a valid POST is answered 201 with id 3 (the `nextId` counter),
not 2; and with distinct clock readings 10 and 11 the two timestamps
differ. -/
theorem post_id_skips_max_after_delete :
    (deleteArticle (initialStore 0) "2").1.articles.map Article.id = [1] ∧
    Reachable (deleteArticle (initialStore 0) "2").1 ∧
    (runRequest postABCReq "u6" 0 10 11
      { store := (deleteArticle (initialStore 0) "2").1, visitors := [] }).2.status = 201 ∧
    (runRequest postABCReq "u6" 0 10 11
      { store := (deleteArticle (initialStore 0) "2").1, visitors := [] }).2.resp =
      some { success := true,
             data := .article { id := 3, title := "A", content := "B", author := "C",
                                created_at := 10, updated_at := 11 } } ∧
    ((3 : Int) ≠ 1 + 1) ∧ ((10 : Int) ≠ 11) := by
  refine ⟨by decide, Reachable.delete _ _ (Reachable.init 0), ?_, ?_, by decide, by decide⟩ <;>
    (rw [runRequest_fresh postABCReq "u6" 0 10 11
          ((deleteArticle (initialStore 0) "2").1) [] rfl rfl]; decide)

/-- C4. create(record): an empty title, content or author leaves the
store untouched (same slice, same `nextId`) and yields a 400 with the
validation error; otherwise the record gets id `nextId`, the two
current-clock readings as created_at and updated_at, is appended, and is
returned in the envelope. -/
theorem create_validates_then_appends (s : StoreState) (input : Article)
    (t1 t2 : Int) :
    (input.title = "" ∨ input.content = "" ∨ input.author = "" →
      (createArticle s input t1 t2).1 = s ∧
      (createArticle s input t1 t2).2.1 = 400 ∧
      (createArticle s input t1 t2).2.2.success = false ∧
      (createArticle s input t1 t2).2.2.error = validateErrMsg) ∧
    (input.title ≠ "" → input.content ≠ "" → input.author ≠ "" →
      (createArticle s input t1 t2).1.articles =
        s.articles ++
          [{ input with id := s.nextId, created_at := t1, updated_at := t2 }] ∧
      (createArticle s input t1 t2).1.nextId = s.nextId + 1 ∧
      (createArticle s input t1 t2).2.1 = 201 ∧
      (createArticle s input t1 t2).2.2.success = true ∧
      (createArticle s input t1 t2).2.2.data =
        .article { input with id := s.nextId, created_at := t1, updated_at := t2 }) := by
  constructor
  · intro h
    have hv : validateArticleFails input = true := by
      rcases h with h | h | h <;> simp [validateArticleFails, h]
    simp [createArticle, hv]
  · intro h1 h2 h3
    have hv : validateArticleFails input = false := by
      simp [validateArticleFails, h1, h2, h3]
    simp [createArticle, hv]

/-- Witness for C4: an empty-title record is rejected with the seed store
unchanged; a fully populated record is appended with id `nextId = 3` and
timestamps taken from the clock readings. -/
theorem create_validates_then_appends_witness :
    ((createArticle (initialStore 0)
        { id := 0, title := "", content := "c", author := "a",
          created_at := 0, updated_at := 0 } 5 6).1 = initialStore 0 ∧
     (createArticle (initialStore 0)
        { id := 0, title := "", content := "c", author := "a",
          created_at := 0, updated_at := 0 } 5 6).2.1 = 400 ∧
     (createArticle (initialStore 0)
        { id := 0, title := "", content := "c", author := "a",
          created_at := 0, updated_at := 0 } 5 6).2.2.success = false ∧
     (createArticle (initialStore 0)
        { id := 0, title := "", content := "c", author := "a",
          created_at := 0, updated_at := 0 } 5 6).2.2.error = validateErrMsg) ∧
    ((createArticle (initialStore 0)
        { id := 0, title := "A", content := "B", author := "C",
          created_at := 0, updated_at := 0 } 5 6).1.articles =
      (initialStore 0).articles ++
        [{ id := 3, title := "A", content := "B", author := "C",
           created_at := 5, updated_at := 6 }] ∧
     (createArticle (initialStore 0)
        { id := 0, title := "A", content := "B", author := "C",
          created_at := 0, updated_at := 0 } 5 6).1.nextId = 4 ∧
     (createArticle (initialStore 0)
        { id := 0, title := "A", content := "B", author := "C",
          created_at := 0, updated_at := 0 } 5 6).2.1 = 201) := by
  have hbad := (create_validates_then_appends (initialStore 0)
    { id := 0, title := "", content := "c", author := "a",
      created_at := 0, updated_at := 0 } 5 6).1 (Or.inl rfl)
  have hgood := (create_validates_then_appends (initialStore 0)
    { id := 0, title := "A", content := "B", author := "C",
      created_at := 0, updated_at := 0 } 5 6).2 (by decide) (by decide) (by decide)
  exact ⟨hbad, hgood.1, hgood.2.1, hgood.2.2.1⟩

/-- C5. update(id, fields): an unknown id gives 404 with the store
unchanged; otherwise exactly the addressed entry is replaced — only title,
content, author and updated_at change, id and created_at are kept, the
counter and every other index are untouched — and updated_at becomes the
clock reading, strictly later than the old stamp whenever the clock has
advanced past it. -/
theorem update_frame (s : StoreState) (idStr : String) (input : Article)
    (t : Int) :
    (findArticleByID s.articles (atoiIgnoreErr idStr) = Option.none →
      updateArticle s idStr input t =
        (s, 404, { success := false, error := "article not found" })) ∧
    (∀ (a : Article) (i : Nat),
      findArticleByID s.articles (atoiIgnoreErr idStr) = some (a, i) →
      (updateArticle s idStr input t).1.articles =
        s.articles.set i
          { a with title := input.title, content := input.content,
                   author := input.author, updated_at := t } ∧
      (updateArticle s idStr input t).1.nextId = s.nextId ∧
      (updateArticle s idStr input t).2.1 = 200 ∧
      (updateArticle s idStr input t).2.2.data =
        .article { a with title := input.title, content := input.content,
                          author := input.author, updated_at := t } ∧
      (∀ j : Nat, j ≠ i →
        (updateArticle s idStr input t).1.articles.get? j = s.articles.get? j) ∧
      (updateArticle s idStr input t).1.articles.get? i =
        some { a with title := input.title, content := input.content,
                      author := input.author, updated_at := t } ∧
      ({ a with title := input.title, content := input.content,
                author := input.author, updated_at := t } : Article).id = a.id ∧
      ({ a with title := input.title, content := input.content,
                author := input.author, updated_at := t } : Article).created_at =
        a.created_at ∧
      ({ a with title := input.title, content := input.content,
                author := input.author, updated_at := t } : Article).updated_at = t ∧
      (a.updated_at < t →
        a.updated_at <
          ({ a with title := input.title, content := input.content,
                    author := input.author, updated_at := t } : Article).updated_at)) := by
  constructor
  · intro h
    simp [updateArticle, h]
  · intro a i h
    have hget := (findArticleByID_eq_some s.articles _ a i h).1
    have hlt : i < s.articles.length := by
      rcases List.get?_eq_some.mp hget with ⟨hl, _⟩
      exact hl
    refine ⟨by simp [updateArticle, h], by simp [updateArticle, h],
            by simp [updateArticle, h], by simp [updateArticle, h],
            ?_, ?_, rfl, rfl, rfl, fun hc => hc⟩
    · intro j hj
      simp only [updateArticle, h]
      exact List.get?_set_ne _ _ (Ne.symm hj)
    · simp only [updateArticle, h]
      exact List.get?_set_eq_of_lt _ hlt

/-- Witness for C5: updating the absent id 99 is a 404 leaving the seed
store intact; updating id 1 replaces exactly entry 0, keeping its id and
created_at and stamping updated_at with the (later) clock reading. -/
theorem update_frame_witness :
    updateArticle (initialStore 0) "99" zeroArticle 7 =
      (initialStore 0, 404, { success := false, error := "article not found" }) ∧
    (updateArticle (initialStore 0) "1"
        { id := 0, title := "T2", content := "C2", author := "A2",
          created_at := 0, updated_at := 0 } 7).1.articles =
      (initialStore 0).articles.set 0
        { id := 1, title := "T2", content := "C2", author := "A2",
          created_at := 0, updated_at := 7 } ∧
    (0 : Int) <
      ({ id := 1, title := "T2", content := "C2", author := "A2",
         created_at := 0, updated_at := 7 } : Article).updated_at := by
  have h1 := (update_frame (initialStore 0) "99" zeroArticle 7).1 rfl
  have h2 := (update_frame (initialStore 0) "1"
    { id := 0, title := "T2", content := "C2", author := "A2",
      created_at := 0, updated_at := 0 } 7).2
    { id := 1, title := "Getting Started with Go",
      content := "Go is a programming language...", author := "John Doe",
      created_at := 0, updated_at := 0 } 0 rfl
  exact ⟨h1, h2.1, h2.2.2.2.2.2.2.2.2.2 (by decide)⟩

/-- C10. In the GET/PUT/DELETE handlers, an `{id}` segment that is not
a decimal integer parses to 0 because the `Atoi` error is discarded; no
reachable store holds an article with id 0, so all three handlers answer
404 "article not found" with the store unchanged — never a 400. -/
theorem nonnumeric_id_gives_not_found (s : StoreState) (seg reqID : String)
    (input : Article) (t : Int)
    (hs : Reachable s) (hseg : parseDecimalInt seg = Option.none) :
    atoiIgnoreErr seg = 0 ∧
    (∀ a ∈ s.articles, a.id ≠ 0) ∧
    getArticleById s seg reqID =
      (404, { success := false, error := "article not found", requestID := reqID }) ∧
    updateArticle s seg input t =
      (s, 404, { success := false, error := "article not found" }) ∧
    deleteArticle s seg =
      (s, 404, { success := false, error := "article not found" }) := by
  have h0 : atoiIgnoreErr seg = 0 := by simp [atoiIgnoreErr, hseg]
  have hids : ∀ a ∈ s.articles, a.id ≠ 0 := by
    intro a ha
    obtain ⟨h1, _⟩ := (reachable_storeInv s hs).2 a ha
    omega
  have hfind : findArticleByID s.articles (atoiIgnoreErr seg) = Option.none := by
    rw [h0]
    exact (findArticleByID_eq_none s.articles 0).mpr hids
  exact ⟨h0, hids, by simp [getArticleById, hfind], by simp [updateArticle, hfind],
         by simp [deleteArticle, hfind]⟩

/-- Witness for C10 at the seed store and the segment `"abc"`. -/
theorem nonnumeric_id_gives_not_found_witness :
    atoiIgnoreErr "abc" = 0 ∧
    (∀ a ∈ (initialStore 0).articles, a.id ≠ 0) ∧
    getArticleById (initialStore 0) "abc" "r1" =
      (404, { success := false, error := "article not found", requestID := "r1" }) ∧
    updateArticle (initialStore 0) "abc" zeroArticle 9 =
      (initialStore 0, 404, { success := false, error := "article not found" }) ∧
    deleteArticle (initialStore 0) "abc" =
      (initialStore 0, 404, { success := false, error := "article not found" }) :=
  nonnumeric_id_gives_not_found (initialStore 0) "abc" "r1" zeroArticle 9
    (Reachable.init 0) rfl

/-- C8. Under the configured bucket (capacity 100, one token per
`time.Minute/100`), any client not yet known to the limiter gets exactly
100 admissions in an instantaneous burst, the 101st request in the same
instant is rejected — at the middleware level with an aborting 429 —
and one further request one full refill interval later is admitted. -/
theorem token_bucket_burst (ip : String) (vis : Visitors) (now0 : ℚ)
    (h : List.lookup ip vis = Option.none) :
    (runDecisions ip vis (List.replicate 100 now0)).1 = List.replicate 100 true ∧
    (runDecisions ip vis (List.replicate 101 now0)).1 =
      List.replicate 100 true ++ [false] ∧
    (runDecisions ip vis (List.replicate 101 now0 ++ [now0 + refillInterval])).1 =
      List.replicate 100 true ++ [false, true] ∧
    (∀ (req : Request) (c : Ctx), req.clientIP = ip →
      (rateLimitMiddleware req now0
        (runDecisions ip vis (List.replicate 100 now0)).2 c).2.status = 429 ∧
      (rateLimitMiddleware req now0
        (runDecisions ip vis (List.replicate 100 now0)).2 c).2.aborted = true ∧
      (rateLimitMiddleware req now0
        (runDecisions ip vis (List.replicate 100 now0)).2 c).2.resp.map
        Response.error = some "too many requests, limit exceeded") := by
  have hcap : bucketCapacity = 100 := rfl
  have hb100 : bucketRun { tokens := bucketCapacity, last := now0 }
      (List.replicate 100 now0) =
      (List.replicate 100 true, { tokens := 0, last := now0 }) := by
    have hb := bucketRun_burst 100 bucketCapacity now0
      (by rw [hcap]; norm_num) le_rfl
    rw [hb, hcap]
    norm_num
  have hb101 : bucketRun { tokens := bucketCapacity, last := now0 }
      (List.replicate 101 now0) =
      (List.replicate 100 true ++ [false], { tokens := 0, last := now0 }) := by
    rw [show (101 : ℕ) = 100 + 1 from rfl, List.replicate_add,
        bucketRun_append, hb100]
    simp [bucketRun, allow_empty]
  have hb102 : bucketRun { tokens := bucketCapacity, last := now0 }
      (List.replicate 101 now0 ++ [now0 + refillInterval]) =
      (List.replicate 100 true ++ [false, true],
       { tokens := 0, last := now0 + refillInterval }) := by
    rw [bucketRun_append, hb101]
    simp [bucketRun, allow_after_refill]
  have e1 : List.replicate 100 now0 = now0 :: List.replicate 99 now0 := rfl
  have e2 : List.replicate 101 now0 = now0 :: List.replicate 100 now0 := rfl
  have e3 : List.replicate 101 now0 ++ [now0 + refillInterval] =
      now0 :: (List.replicate 100 now0 ++ [now0 + refillInterval]) := rfl
  obtain ⟨hf1, hf2⟩ := runDecisions_fresh ip vis now0 (List.replicate 99 now0) h
  rw [← e1] at hf1 hf2
  obtain ⟨hg1, _⟩ := runDecisions_fresh ip vis now0 (List.replicate 100 now0) h
  rw [← e2] at hg1
  obtain ⟨hh1, _⟩ := runDecisions_fresh ip vis now0
    (List.replicate 100 now0 ++ [now0 + refillInterval]) h
  rw [← e3] at hh1
  refine ⟨hf1.trans (by rw [hb100]), hg1.trans (by rw [hb101]),
          hh1.trans (by rw [hb102]), ?_⟩
  intro req c hip
  have hlook : List.lookup req.clientIP
      (runDecisions ip vis (List.replicate 100 now0)).2 =
      some { tokens := 0, last := now0 } := by
    rw [hip, hf2, hb100]
  have hdec : rateLimitDecision (runDecisions ip vis (List.replicate 100 now0)).2
      req.clientIP now0 =
      ((Bucket.allow { tokens := 0, last := now0 } now0).1,
       Visitors.store
        (runDecisions ip vis (List.replicate 100 now0)).2 req.clientIP
        (Bucket.allow { tokens := 0, last := now0 } now0).2) := by
    unfold rateLimitDecision getLimiter
    rw [hlook]
  rw [allow_empty] at hdec
  constructor
  · unfold rateLimitMiddleware
    rw [hdec]
    rfl
  constructor
  · unfold rateLimitMiddleware
    rw [hdec]
    rfl
  · unfold rateLimitMiddleware
    rw [hdec]
    rfl

/-- Witness for C8: a concrete client against an empty visitors map, with
the 101st-request rejection exercised through the middleware itself. -/
theorem token_bucket_burst_witness :
    (runDecisions "203.0.113.9" [] (List.replicate 100 0)).1 =
      List.replicate 100 true ∧
    (runDecisions "203.0.113.9" [] (List.replicate 101 0)).1 =
      List.replicate 100 true ++ [false] ∧
    (runDecisions "203.0.113.9" [] (List.replicate 101 0 ++ [refillInterval])).1 =
      List.replicate 100 true ++ [false, true] ∧
    (rateLimitMiddleware { method := "GET", path := "/ping", clientIP := "203.0.113.9" } 0
      (runDecisions "203.0.113.9" [] (List.replicate 100 0)).2 {}).2.status = 429 := by
  have h := token_bucket_burst "203.0.113.9" [] 0 rfl
  have h4 := (h.2.2.2 { method := "GET", path := "/ping", clientIP := "203.0.113.9" } {} rfl).1
  refine ⟨h.1, h.2.1, ?_, h4⟩
  have := h.2.2.1
  rwa [zero_add] at this

/-- C6 (amended). A POST /articles with a fully populated body and a
valid key, admitted by the limiter, is answered 201; the assigned id is the
store's `nextId` counter — strictly greater than every stored id, but the
successor of the maximum only while no larger id was deleted — the record
is appended and the counter incremented; and created_at/updated_at are the
two successive clock readings, so created_at ≤ updated_at whenever the
clock is monotone. -/
theorem post_assigns_counter_id (store : StoreState) (input : Article)
    (uuid ip : String) (now : ℚ) (t1 t2 : Int)
    (hreach : Reachable store)
    (ht : input.title ≠ "") (hc : input.content ≠ "") (ha : input.author ≠ "")
    (htt : t1 ≤ t2) :
    (runRequest (postReq input ip) uuid now t1 t2
      { store := store, visitors := [] }).2.status = 201 ∧
    (runRequest (postReq input ip) uuid now t1 t2
      { store := store, visitors := [] }).2.resp =
      some { success := true,
             data := .article { input with id := store.nextId,
                                           created_at := t1,
                                           updated_at := t2 } } ∧
    (runRequest (postReq input ip) uuid now t1 t2
      { store := store, visitors := [] }).1.store.articles =
      store.articles ++
        [{ input with id := store.nextId, created_at := t1, updated_at := t2 }] ∧
    (runRequest (postReq input ip) uuid now t1 t2
      { store := store, visitors := [] }).1.store.nextId = store.nextId + 1 ∧
    (∀ a ∈ store.articles, a.id < store.nextId) ∧
    ({ input with id := store.nextId, created_at := t1,
                  updated_at := t2 } : Article).created_at ≤
      ({ input with id := store.nextId, created_at := t1,
                    updated_at := t2 } : Article).updated_at := by
  have hv : validateArticleFails input = false := by
    simp [validateArticleFails, ht, hc, ha]
  have hfresh : List.lookup ip ([] : Visitors) = Option.none := rfl
  rw [runRequest_fresh (postReq input ip) uuid now t1 t2 store [] rfl hfresh]
  have hroute : findRoute (postReq input ip).method (postReq input ip).path =
      some ({ method := "POST", pattern := "/articles", requiresAuth := true,
              handler := .createArticle }, []) := rfl
  have hct : contentTypeMiddleware (postReq input ip) (gatesCtx (postReq input ip) uuid) =
      gatesCtx (postReq input ip) uuid := by
    unfold contentTypeMiddleware postReq hasPrefixStr
    rfl
  have hab := gatesCtx_aborted (postReq input ip) uuid rfl
  have hauth : authMiddleware (postReq input ip) (gatesCtx (postReq input ip) uuid) =
      (gatesCtx (postReq input ip) uuid).set "role" "admin" := by
    unfold authMiddleware postReq apiKeys
    rfl
  unfold afterRateLimit
  rw [hct]
  simp only [hab, Bool.false_eq_true, if_false, hroute, hauth]
  have hab2 : ((gatesCtx (postReq input ip) uuid).set "role" "admin").aborted = false := hab
  simp only [ite_true, hab2, Bool.false_eq_true, if_false]
  show ((createArticleHandler store (postReq input ip) t1 t2 _).2.status = 201) ∧ _
  unfold createArticleHandler postReq createArticle
  simp only [hv, Bool.false_eq_true, if_false]
  refine ⟨rfl, rfl, by trivial, by trivial, ?_, htt⟩
  intro a ha2
  exact ((reachable_storeInv store hreach).2 a ha2).2

/-- Witness for the amended C6 at the seed store with equal clock
readings. -/
theorem post_assigns_counter_id_witness :
    (runRequest (postReq { id := 0, title := "A", content := "B", author := "C",
                           created_at := 0, updated_at := 0 } "198.51.100.9") "u6w" 0 5 5
      { store := initialStore 0, visitors := [] }).2.status = 201 ∧
    (runRequest (postReq { id := 0, title := "A", content := "B", author := "C",
                           created_at := 0, updated_at := 0 } "198.51.100.9") "u6w" 0 5 5
      { store := initialStore 0, visitors := [] }).2.resp =
      some { success := true,
             data := .article { id := 3, title := "A", content := "B", author := "C",
                                created_at := 5, updated_at := 5 } } := by
  have h := post_assigns_counter_id (initialStore 0)
    { id := 0, title := "A", content := "B", author := "C",
      created_at := 0, updated_at := 0 } "u6w" "198.51.100.9" 0 5 5
    (Reachable.init 0) (by decide) (by decide) (by decide) le_rfl
  exact ⟨h.1, h.2.1⟩

/-- C1 (amended). Whenever a response envelope carries a nonempty
request_id, it equals the X-Request-ID response header of the same
request; the Recovery envelope always carries the context's stored
correlation id; and the correlation-id stage keeps the stored id and the
outbound header identical. (The unamended universal presence fails: the
create/update/delete/stats handlers write envelopes with no request_id.) -/
theorem requestId_matches_header :
    (∀ (req : Request) (uuid : String) (now : ℚ) (t1 t2 : Int)
       (s : ServerState) (r : Response),
       (runRequest req uuid now t1 t2 s).2.resp = some r →
       r.requestID ≠ "" →
       r.requestID = (runRequest req uuid now t1 t2 s).2.header "X-Request-ID") ∧
    (∀ (c : Ctx) (r : Response), (recoveredResponse c).resp = some r →
       r.requestID = c.getString "request_id") ∧
    (∀ (c : Ctx) (uuid : String),
       (requestIDMiddleware uuid c).getString "request_id" =
         (requestIDMiddleware uuid c).header "X-Request-ID") := by
  refine ⟨?_, ?_, ?_⟩
  · intro req uuid now t1 t2 s r hr hne
    unfold runRequest at hr ⊢
    dsimp only at hr ⊢
    by_cases hcors : (corsMiddleware req (requestIDMiddleware uuid {})).aborted = true
    · rw [if_pos hcors] at hr
      rw [cors_resp_none] at hr
      exact absurd hr (by simp)
    · rw [if_neg hcors] at hr ⊢
      rcases hRL : rateLimitMiddleware req now s.visitors
          (corsMiddleware req (requestIDMiddleware uuid {})) with ⟨vis2, c2⟩
      rw [hRL] at hr
      dsimp only at hr ⊢
      unfold rateLimitMiddleware at hRL
      rcases hdec : rateLimitDecision s.visitors req.clientIP now with ⟨allowed, vis3⟩
      rw [hdec] at hRL
      dsimp only at hRL
      by_cases hab : c2.aborted = true
      · rw [if_pos hab] at hr ⊢
        cases allowed with
        | false =>
            injection hRL with h1 h2
            rw [← h2] at hr ⊢
            rw [ctx_resp_abortJSON] at hr
            injection hr with h3
            rw [← h3]
            rw [ctx_header_abortJSON, gates_getString_requestId,
                gates_header_requestId]
        | true =>
            injection hRL with h1 h2
            rw [← h2, ctx_aborted_setHeader] at hab
            exact absurd hab hcors
      · rw [if_neg hab] at hr ⊢
        cases allowed with
        | false =>
            injection hRL with h1 h2
            rw [← h2] at hab
            exact absurd rfl hab
        | true =>
            injection hRL with h1 h2
            rw [← h2] at hr ⊢
            rcases afterRateLimit_requestId req t1 t2
                { store := s.store, visitors := vis2 } _
                (gates_resp_none req uuid) r hr with h | h
            · exact absurd h hne
            · rw [h, gates_getString_requestId]
              rw [ctx_header_congr _ _ _
                    (afterRateLimit_headers req t1 t2
                      { store := s.store, visitors := vis2 } _),
                  gates_header_requestId]
  · intro c r hr
    unfold recoveredResponse at hr
    rw [ctx_resp_abortJSON] at hr
    injection hr with h
    rw [← h]
  · intro c uuid
    rfl

/-- Witness for the amended C1: the ping response carries a nonempty
request_id equal to the header. -/
theorem requestId_matches_header_witness :
    (runRequest { method := "GET", path := "/ping", clientIP := "198.51.100.3" }
      "uw1" 0 0 0 { store := initialStore 0, visitors := [] }).2.resp =
      some { success := true, message := "pong", requestID := "uw1" } ∧
    ("uw1" : String) ≠ "" ∧
    ({ success := true, message := "pong", requestID := "uw1" } : Response).requestID =
      (runRequest { method := "GET", path := "/ping", clientIP := "198.51.100.3" }
        "uw1" 0 0 0 { store := initialStore 0, visitors := [] }).2.header
        "X-Request-ID" := by
  have h1 :
      (runRequest { method := "GET", path := "/ping", clientIP := "198.51.100.3" }
        "uw1" 0 0 0 { store := initialStore 0, visitors := [] }).2.resp =
      some { success := true, message := "pong", requestID := "uw1" } := by
    rw [runRequest_fresh { method := "GET", path := "/ping", clientIP := "198.51.100.3" }
          "uw1" 0 0 0 (initialStore 0) [] rfl rfl]
    decide
  refine ⟨h1, by decide, ?_⟩
  exact requestId_matches_header.1
    { method := "GET", path := "/ping", clientIP := "198.51.100.3" }
    "uw1" 0 0 0 { store := initialStore 0, visitors := [] }
    { success := true, message := "pong", requestID := "uw1" } h1 (by decide)

end ArticlesService
